import Mathlib

set_option linter.unusedVariables false

/-!
Verification of the multi-agent-swarm repository.

This file gives a shallow embedding of the repository's data model and
operations (src/agents/init.py, src/agents/main.py and the five agent
modules) and proves the specification's claims about them.

Modelling conventions:
- Python dictionaries parsed from JSON/YAML are association lists of
  `String × JVal` (insertion ordered, first-key-wins lookup, matching
  Python dict semantics for the keys used by this code).
- The `requests` transport layer is external to this repository; it is
  modelled as the spec describes it (§4.1/§6): one synchronous round
  trip per call whose outcome is either a transport-level failure
  (carrying an exception reason string) or a final HTTP response; a
  non-2xx final status surfaces as a raised `RequestException`
  (redirects are resolved inside the library), and a raised exception
  carries a reason string.
- Fallible Python code (code that can raise) is embedded in
  `Except String`; total Python code is embedded as a total function.
-/

namespace MAS

/-- A JSON/YAML value as produced by `response.json()` / `yaml.safe_load`. -/
inductive JVal where
  | str (s : String)
  | num (n : Int)
  | flt (q : Rat)
  | bool (b : Bool)
  | arr (elems : List JVal)
  | obj (fields : List (String × JVal))

/-- Python dict lookup on an association list: first binding of the key wins. -/
def lookupKey (key : String) : List (String × JVal) → Option JVal
  | [] => none
  | (k, v) :: rest => if k = key then some v else lookupKey key rest

/-- Python `str()` rendering used by f-string interpolation.  Exact for
strings, integers and booleans — the only values this code ever
interpolates (the gateway stores only exception-reason strings under
`"error"`).  Container and float renderings are abbreviated; no theorem
below depends on them. -/
def pyStr : JVal → String
  | .str s => s
  | .num n => toString n
  | .flt q => toString q
  | .bool b => if b then "True" else "False"
  | .arr _ => "[...]"
  | .obj _ => "\x7b...\x7d"

/-- Outcome of one HTTP round trip against the local model endpoint:
either a transport-level failure (connection refused, timeout, ...,
carrying the exception's reason string) or a final HTTP response with
its status code and parsed JSON object body. -/
inductive TransportOutcome where
  | connectionError (reason : String)
  | httpResponse (status : Nat) (body : List (String × JVal))

/-- The `requests.post/get` + `raise_for_status()` + `response.json()`
pipeline: a transport failure or a non-2xx final status raises a
`RequestException` (embedded as `.error reason`); a 2xx response yields
its parsed body. -/
def requestOutcome : TransportOutcome → Except String (List (String × JVal))
  | .connectionError reason => .error reason
  | .httpResponse status body =>
      if 200 ≤ status ∧ status < 300 then .ok body
      else .error ("HTTP error " ++ toString status)

/-- The exception reason produced by a failing round trip (`none` when
the round trip succeeds). -/
def failureReason : TransportOutcome → Option String
  | .connectionError reason => some reason
  | .httpResponse status _ =>
      if 200 ≤ status ∧ status < 300 then none
      else some ("HTTP error " ++ toString status)

/-- `OllamaClient.__init__` state (src/agents/init.py).  The fields come
from untyped YAML configuration, hence `JVal`. -/
structure OllamaClient where
  base_url : JVal
  model : JVal

/-- `self.headers` set by `OllamaClient.__init__`. -/
def OllamaClient.headers : List (String × String) :=
  [("Content-Type", "application/json")]

/-- URL of the generate endpoint: `f"{self.base_url}/api/generate"`. -/
def generateUrl (c : OllamaClient) : String := pyStr c.base_url ++ "/api/generate"

/-- URL of the chat endpoint: `f"{self.base_url}/api/chat"`. -/
def chatUrl (c : OllamaClient) : String := pyStr c.base_url ++ "/api/chat"

/-- URL of the tags endpoint: `f"{self.base_url}/api/tags"`. -/
def tagsUrl (c : OllamaClient) : String := pyStr c.base_url ++ "/api/tags"

/-- Request body built by `OllamaClient.generate`. -/
def generateData (c : OllamaClient) (prompt : String) (stream : Bool) : JVal :=
  .obj [("model", c.model), ("prompt", .str prompt), ("stream", .bool stream)]

/-- Request body built by `OllamaClient.chat`. -/
def chatData (c : OllamaClient) (messages : List JVal) (stream : Bool) : JVal :=
  .obj [("model", c.model), ("messages", .arr messages), ("stream", .bool stream)]

/-- `OllamaClient.generate` (src/agents/init.py): posts the prompt to
`/api/generate`; on success returns the parsed response body; on any
`RequestException` returns `{"error": str(e)}`.  `post` is the transport
oracle giving the round-trip outcome for a given URL and request body. -/
def OllamaClient.generate (c : OllamaClient) (prompt : String) (stream : Bool)
    (post : String → JVal → TransportOutcome) : List (String × JVal) :=
  match requestOutcome (post (generateUrl c) (generateData c prompt stream)) with
  | .ok body => body
  | .error e => [("error", .str e)]

/-- `OllamaClient.chat` (src/agents/init.py): posts the message history to
`/api/chat`; same failure handling as `generate`. -/
def OllamaClient.chat (c : OllamaClient) (messages : List JVal) (stream : Bool)
    (post : String → JVal → TransportOutcome) : List (String × JVal) :=
  match requestOutcome (post (chatUrl c) (chatData c messages stream)) with
  | .ok body => body
  | .error e => [("error", .str e)]

/-- `OllamaClient.list_models` (src/agents/init.py): GETs `/api/tags`; same
failure handling.  `get` is the transport oracle for GET requests. -/
def OllamaClient.list_models (c : OllamaClient)
    (get : String → TransportOutcome) : List (String × JVal) :=
  match requestOutcome (get (tagsUrl c)) with
  | .ok body => body
  | .error e => [("error", .str e)]

/-- The message list `[{"role": "user", "content": prompt}]` built by
`ollama_query` on its chat path. -/
def userMessages (prompt : String) : List JVal :=
  [.obj [("role", .str "user"), ("content", .str prompt)]]

/-- The gateway result `ollama_query` branches on: `ollama_client.chat(messages)`
when `use_chat`, else `ollama_client.generate(prompt)` (both with the
default `stream=False`). -/
def gatewayResult (client : OllamaClient) (prompt : String) (use_chat : Bool)
    (post : String → JVal → TransportOutcome) : List (String × JVal) :=
  if use_chat then client.chat (userMessages prompt) false post
  else client.generate prompt false post

/-- The `ollama_query` tool (src/agents/init.py).  On an `"error"` entry in
the gateway result it returns `f"Error: {result['error']}"`; otherwise the
generate path returns `result.get("response", "No response received")` and
the chat path returns `result.get("message", {}).get("content",
"No response received")`.  `.get` on a non-dict `"message"` value raises
`AttributeError` (embedded as `.error`); everything else is a returned
value (embedded as `.ok`). -/
def ollama_query (client : OllamaClient) (prompt : String) (use_chat : Bool)
    (post : String → JVal → TransportOutcome) : Except String JVal :=
  if use_chat then
    match lookupKey "error" (client.chat (userMessages prompt) false post) with
    | some v => .ok (.str ("Error: " ++ pyStr v))
    | none =>
        match (lookupKey "message" (client.chat (userMessages prompt) false post)).getD (.obj []) with
        | .obj fields => .ok ((lookupKey "content" fields).getD (.str "No response received"))
        | _ => .error "AttributeError"
  else
    match lookupKey "error" (client.generate prompt false post) with
    | some v => .ok (.str ("Error: " ++ pyStr v))
    | none =>
        .ok ((lookupKey "response" (client.generate prompt false post)).getD
          (.str "No response received"))

/-- Ambient effect state an impure tool implementation could consult: a
network oracle and a process/sandbox oracle.  The stub tools below are
handed it and ignore it, which is exactly what the purity claims state. -/
structure World where
  net : String → String
  proc : String → String

/-- The `web_search` tool (src/agents/init.py): returns
`f"Search results for '{query}': [Simulated search results would appear here]"`
without touching the world. -/
def web_search (w : World) (query : String) : String :=
  "Search results for \x27" ++ query ++ "\x27: [Simulated search results would appear here]"

/-- The `code_execution` tool (src/agents/init.py): returns
`f"Code execution result: [Simulated execution of {language} code]"`
without touching the world or the code argument. -/
def code_execution (w : World) (code : String) (language : String) : String :=
  "Code execution result: [Simulated execution of " ++ language ++ " code]"

/-- State of the configuration file on disk, as seen by
`SwarmConfig.load_config`: absent, present and parsing to a YAML document,
or present but failing to read/parse (IO error or `yaml` error, carrying
the exception reason). -/
inductive FileState where
  | absent
  | presentOk (doc : JVal)
  | presentBad (err : String)

/-- The default configuration document synthesized by
`SwarmConfig.create_default_config` (src/agents/init.py). -/
def default_config : JVal :=
  .obj [("ollama", .obj [
           ("host", .str "http://localhost:11434"),
           ("default_model", .str "llama3.2:1b"),
           ("temperature", .flt (7/10)),
           ("keep_alive", .str "10m")]),
        ("swarm", .obj [
           ("max_handoffs", .num 25),
           ("max_iterations", .num 30),
           ("execution_timeout", .flt 1200),
           ("node_timeout", .flt 300),
           ("repetitive_handoff_detection_window", .num 8),
           ("repetitive_handoff_min_unique_agents", .num 3)])]

/-- Result of loading the configuration: the returned document plus the
file writes that were issued along the way (`create_default_config`
attempts to persist the default; a failing write is logged and swallowed,
so only the attempt is modelled). -/
structure LoadResult where
  config : JVal
  writes : List (String × JVal)

/-- `SwarmConfig.create_default_config`: returns the default document and
writes it to the configuration path. -/
def create_default_config (path : String) : LoadResult :=
  { config := default_config, writes := [(path, default_config)] }

/-- `SwarmConfig.load_config` (src/agents/init.py): if the file exists and
parses, return its document; if it is absent, synthesize (and persist) the
default; if reading or parsing raises, log and fall back to the default.
Total — no exception reaches the caller. -/
def load_config (path : String) : FileState → LoadResult
  | .presentOk doc => { config := doc, writes := [] }
  | .absent => create_default_config path
  | .presentBad _ => create_default_config path

/-- Lower-casing of a string, character by character (Python `str.lower`
restricted to the ASCII phrases the classifier uses). -/
def lowerStr (s : String) : List Char := s.toList.map Char.toLower

/-- Executable prefix test on character lists. -/
def isPrefixOfCh : List Char → List Char → Bool
  | [], _ => true
  | _ :: _, [] => false
  | a :: as, b :: bs => a == b && isPrefixOfCh as bs

/-- Executable substring (contiguous-infix) test on character lists,
Python's `phrase in text`. -/
def isInfixOfCh (needle : List Char) : List Char → Bool
  | [] => needle.isEmpty
  | b :: bs => isPrefixOfCh needle (b :: bs) || isInfixOfCh needle bs

/-- The closed result enumeration of the strategy classifier (spec §3
`StrategyResult`). -/
inductive StrategyResult where
  | multi_agent_coordination
  | specialist_direct
  | assess_complexity
deriving DecidableEq

/-- The fixed coordination-phrase list of the strategy classifier
(spec §4.3). -/
def coordination_keywords : List String :=
  ["research and", "analyze and create", "find and validate",
   "calculate and explain", "search and summarize", "create and test",
   "design and implement"]

/-- The fixed specialist-phrase list of the strategy classifier
(spec §4.3). -/
def specialist_keywords : List String :=
  ["coordinate", "orchestrate", "manage", "oversee", "synthesize",
   "integrate", "combine", "merge"]

/-- Modelled from the spec: the strategy classifier (`classify`, spec §4.3)
is code of this repository that is missing from src/ — the coordinator
module that should carry it is absent (src/agents/Hynicl_agent.py is an
unrelated standalone script and src/agents/main.py only imports the
coordinator's factory).  Faithful to the spec's words: lower-case the task
text; if any coordination phrase occurs as a substring return
`multi_agent_coordination`; else if any specialist phrase occurs return
`specialist_direct`; else return `assess_complexity`. -/
def classify (task : String) : StrategyResult :=
  if coordination_keywords.any (fun p => isInfixOfCh p.toList (lowerStr task)) then
    .multi_agent_coordination
  else if specialist_keywords.any (fun p => isInfixOfCh p.toList (lowerStr task)) then
    .specialist_direct
  else
    .assess_complexity

/-- Spec-side reading of "the phrase occurs as a substring of the
lower-cased task text", stated with the mathematical contiguous-infix
relation rather than the executable test. -/
def OccursIn (phrase task : String) : Prop :=
  phrase.toList <:+: lowerStr task

/-- Some coordination phrase occurs in the lower-cased task. -/
def CoordinationMatch (task : String) : Prop :=
  ∃ p ∈ coordination_keywords, OccursIn p task

/-- Some specialist phrase occurs in the lower-cased task. -/
def SpecialistMatch (task : String) : Prop :=
  ∃ p ∈ specialist_keywords, OccursIn p task

instance (phrase task : String) : Decidable (OccursIn phrase task) :=
  List.decidableInfix phrase.toList (lowerStr task)

instance (task : String) : Decidable (CoordinationMatch task) :=
  List.decidableBEx (fun p => OccursIn p task) coordination_keywords

instance (task : String) : Decidable (SpecialistMatch task) :=
  List.decidableBEx (fun p => OccursIn p task) specialist_keywords

/-- The registered tool functions of src/agents/init.py: the five
`strands_tools` imports plus the three `@tool` functions defined there. -/
inductive ToolName where
  | file_read
  | file_write
  | editor
  | calculator
  | memory
  | web_search
  | code_execution
  | ollama_query
deriving DecidableEq

/-- The Tool Registry: every capability registered for agent use. -/
def registry : List ToolName :=
  [.file_read, .file_write, .editor, .calculator, .memory,
   .web_search, .code_execution, .ollama_query]

/-- The `OllamaModel` instance constructed by
`MultiAgentSwarm.initialize_ollama` (an external `strands` class; only its
constructor arguments and its identity matter here).  `created_id` is a
creation token: each construction site mints a fresh one, so equality of
`created_id` is object identity. -/
structure OllamaModelSpec where
  created_id : Nat
  host : JVal
  model_id : JVal
  temperature : JVal
  keep_alive : JVal

/-- A constructed `strands` `Agent` as built by the role modules'
`create_agent` methods: name, system prompt from configuration, tool list,
and the model reference passed in by the orchestrator. -/
structure AgentD where
  name : String
  system_prompt : JVal
  tools : List ToolName
  model : OllamaModelSpec

/-- Python subscript `v[key]`: `KeyError` on a dict missing the key,
`TypeError` when the value is not a dict (string subscripts of lists,
strings, numbers all raise). -/
def getKey (v : JVal) (key : String) : Except String JVal :=
  match v with
  | .obj fields =>
      match lookupKey key fields with
      | some x => .ok x
      | none => .error ("KeyError: " ++ key)
  | _ => .error ("TypeError: value is not subscriptable by " ++ key)

/-- `config['Prompt'][key]` as performed by every agent module against the
YAML configuration document. -/
def getPrompt (cfg : JVal) (key : String) : Except String JVal :=
  match getKey cfg "Prompt" with
  | .error e => .error e
  | .ok prompts => getKey prompts key

/-- Modelled from the spec: the coordinator agent factory
(`create_hynicl_agent`) is code of this repository missing from src/
(src/agents/main.py and src/agents/__init__.py import it from a
`hynicl_agent` module that is not present; src/agents/Hynicl_agent.py is a
standalone script that does not define it).  Per spec §4.4/§6 the
coordinator descriptor gets the `hynicl_agent_prompt` configuration key
and a fixed capability subset of the Tool Registry; the subset is
modelled as the tool list the standalone coordinator script binds to its
agent (file_read, file_write, editor, ollama_query). -/
def create_hynicl_agent (cfg : JVal) (m : OllamaModelSpec) : Except String AgentD :=
  match getPrompt cfg "hynicl_agent_prompt" with
  | .error e => .error e
  | .ok p => .ok { name := "hynicl", system_prompt := p,
                   tools := [.file_read, .file_write, .editor, .ollama_query], model := m }

/-- `create_search_agent` = `SearchAgent(ollama_model).get_agent()`
(src/agents/search_agent.py): name "search", prompt
`config['Prompt']['search_agent_prompt']`, tools
`[web_search, memory, ollama_query]`. -/
def create_search_agent (cfg : JVal) (m : OllamaModelSpec) : Except String AgentD :=
  match getPrompt cfg "search_agent_prompt" with
  | .error e => .error e
  | .ok p => .ok { name := "search", system_prompt := p,
                   tools := [.web_search, .memory, .ollama_query], model := m }

/-- `create_reasoning_agent` (src/agents/reasoning_agent.py): name
"reasoning", prompt `config['Prompt']['reasoning_agent_prompt']`, tools
`[memory, calculator, ollama_query]`. -/
def create_reasoning_agent (cfg : JVal) (m : OllamaModelSpec) : Except String AgentD :=
  match getPrompt cfg "reasoning_agent_prompt" with
  | .error e => .error e
  | .ok p => .ok { name := "reasoning", system_prompt := p,
                   tools := [.memory, .calculator, .ollama_query], model := m }

/-- `create_tool_agent` (src/agents/tool_agent.py): name "tool", prompt
`config['Prompt']['tool_agent_prompt']`, tools `[file_read, file_write,
editor, calculator, code_execution, memory, ollama_query]`. -/
def create_tool_agent (cfg : JVal) (m : OllamaModelSpec) : Except String AgentD :=
  match getPrompt cfg "tool_agent_prompt" with
  | .error e => .error e
  | .ok p => .ok { name := "tool", system_prompt := p,
                   tools := [.file_read, .file_write, .editor, .calculator,
                             .code_execution, .memory, .ollama_query], model := m }

/-- `create_validation_agent` (src/agents/validation_agent.py): name
"validation", prompt `config['Prompt']['validation_agent_prompt']`, tools
`[memory, file_read, ollama_query]`. -/
def create_validation_agent (cfg : JVal) (m : OllamaModelSpec) : Except String AgentD :=
  match getPrompt cfg "validation_agent_prompt" with
  | .error e => .error e
  | .ok p => .ok { name := "validation", system_prompt := p,
                   tools := [.memory, .file_read, .ollama_query], model := m }

/-- The logging expression
`[model['name'] for model in models.get('models', [])]` run by
`initialize_ollama` after a successful reachability check; a missing
`'name'` key or a non-dict element raises. -/
def extractNames (models : List (String × JVal)) : Except String (List JVal) :=
  match (lookupKey "models" models).getD (.arr []) with
  | .arr xs => xs.mapM (fun x => getKey x "name")
  | v => .error ("TypeError: value is not subscriptable by " ++ pyStr v)

/-- `MultiAgentSwarm.initialize_ollama` (src/agents/main.py): read the
`ollama` configuration section, build the `OllamaClient`, probe the
endpoint with `list_models`, raise
`ConnectionError("Make sure Ollama is running on localhost:11434")` if the
probe result carries an `"error"` entry, log the model names, then
construct the single `OllamaModel` instance.  The error branch carries the
`self.ollama_client` value already assigned at that point (`none` when the
failure precedes the assignment). -/
def initialize_ollama (cfg : JVal) (get : String → TransportOutcome) :
    Except (String × Option OllamaClient) (OllamaClient × OllamaModelSpec) :=
  match getKey cfg "ollama" with
  | .error e => .error (e, none)
  | .ok ollama_cfg =>
    match getKey ollama_cfg "host" with
    | .error e => .error (e, none)
    | .ok host =>
      match getKey ollama_cfg "default_model" with
      | .error e => .error (e, none)
      | .ok default_model =>
        let client : OllamaClient := { base_url := host, model := default_model }
        let models := client.list_models get
        if (lookupKey "error" models).isSome then
          .error ("ConnectionError: Make sure Ollama is running on localhost:11434",
                  some client)
        else
          match extractNames models with
          | .error e => .error (e, some client)
          | .ok _ =>
            match getKey ollama_cfg "temperature" with
            | .error e => .error (e, some client)
            | .ok temperature =>
              match getKey ollama_cfg "keep_alive" with
              | .error e => .error (e, some client)
              | .ok keep_alive =>
                .ok (client,
                     { created_id := 0, host := host, model_id := default_model,
                       temperature := temperature, keep_alive := keep_alive })

/-- `MultiAgentSwarm.create_specialized_agents` (src/agents/main.py):
build the five agents through their factory functions, in source order,
all bound to the one `self.ollama_model`. -/
def create_specialized_agents (cfg : JVal) (m : OllamaModelSpec) :
    Except String (List (String × AgentD)) :=
  match create_hynicl_agent cfg m with
  | .error e => .error e
  | .ok h =>
    match create_search_agent cfg m with
    | .error e => .error e
    | .ok s =>
      match create_reasoning_agent cfg m with
      | .error e => .error e
      | .ok r =>
        match create_tool_agent cfg m with
        | .error e => .error e
        | .ok t =>
          match create_validation_agent cfg m with
          | .error e => .error e
          | .ok v =>
            .ok [("hynicl", h), ("search", s), ("reasoning", r),
                 ("tool", t), ("validation", v)]

/-- The `Swarm(...)` handle built by `MultiAgentSwarm.create_swarm`: the
agent list (dict values, in insertion order) plus the six execution-policy
values handed to the external orchestrator. -/
structure SwarmObj where
  nodes : List AgentD
  max_handoffs : JVal
  max_iterations : JVal
  execution_timeout : JVal
  node_timeout : JVal
  repetitive_handoff_detection_window : JVal
  repetitive_handoff_min_unique_agents : JVal

/-- `MultiAgentSwarm.create_swarm` (src/agents/main.py): read the six
policy values from the `swarm` configuration section and hand the agent
list to the orchestrator. -/
def create_swarm (cfg : JVal) (agents : List (String × AgentD)) :
    Except String SwarmObj :=
  match getKey cfg "swarm" with
  | .error e => .error e
  | .ok sc =>
    match getKey sc "max_handoffs", getKey sc "max_iterations",
          getKey sc "execution_timeout", getKey sc "node_timeout",
          getKey sc "repetitive_handoff_detection_window",
          getKey sc "repetitive_handoff_min_unique_agents" with
    | .ok mh, .ok mi, .ok et, .ok nt, .ok rw, .ok ru =>
        .ok { nodes := agents.map Prod.snd,
              max_handoffs := mh, max_iterations := mi, execution_timeout := et,
              node_timeout := nt, repetitive_handoff_detection_window := rw,
              repetitive_handoff_min_unique_agents := ru }
    | .error e, _, _, _, _, _ => .error e
    | _, .error e, _, _, _, _ => .error e
    | _, _, .error e, _, _, _ => .error e
    | _, _, _, .error e, _, _ => .error e
    | _, _, _, _, .error e, _ => .error e
    | _, _, _, _, _, .error e => .error e

/-- The orchestrator's field state (`MultiAgentSwarm.__init__` assigns
`self.config`, `self.ollama_client = None`, `self.ollama_model = None`,
`self.agents = {}`, `self.swarm = None` before calling the three
initialization methods).  `models_created` counts `OllamaModel`
constructions performed so far (there is exactly one construction site,
in `initialize_ollama`). -/
structure MASState where
  config : JVal
  ollama_client : Option OllamaClient
  ollama_model : Option OllamaModelSpec
  agents : List (String × AgentD)
  swarm : Option SwarmObj
  models_created : Nat

/-- `MultiAgentSwarm.__init__` (src/agents/main.py): load the
configuration, then `initialize_ollama`, `create_specialized_agents`,
`create_swarm` in order.  An exception anywhere aborts initialization; the
error value carries the exception reason together with the orchestrator's
field state at the moment of the raise. -/
def mas_init (fs : FileState) (get : String → TransportOutcome) :
    Except (String × MASState) MASState :=
  let cfg := (load_config "config.yml" fs).config
  let s0 : MASState :=
    { config := cfg, ollama_client := none, ollama_model := none,
      agents := [], swarm := none, models_created := 0 }
  match initialize_ollama cfg get with
  | .error (e, oc) => .error (e, { s0 with ollama_client := oc })
  | .ok (client, m) =>
    let s1 : MASState :=
      { s0 with ollama_client := some client, ollama_model := some m,
                models_created := 1 }
    match create_specialized_agents cfg m with
    | .error e => .error (e, s1)
    | .ok ags =>
      let s2 : MASState := { s1 with agents := ags }
      match create_swarm cfg ags with
      | .error e => .error (e, s2)
      | .ok sw => .ok { s2 with swarm := some sw }

/-- One call of `BaseAgent.get_agent` (src/agents/init.py) on a wrapper
whose `self.agent` cache is `s`, where `create_agent` is instrumented to
record its invocation index (`ncreated` counts invocations so far).
Returns the call's result together with the updated cache and counter. -/
def get_agent (create_agent : Nat → A) (ncreated : Nat) :
    Option A → A × Option A × Nat
  | none =>
      -- self.agent is None: invoke create_agent and store the result
      let a := create_agent ncreated
      (a, some a, ncreated + 1)
  | some a => (a, some a, ncreated)

/-- `n` successive `get_agent` calls on one wrapper, collecting the
returned agent instances and the final (cache, invocation-count) state. -/
def runGetAgent (create_agent : Nat → A) :
    Nat → Option A × Nat → List A × (Option A × Nat)
  | 0, s => ([], s)
  | n + 1, (cache, k) =>
      match get_agent create_agent k cache with
      | (a, cache2, k2) =>
        match runGetAgent create_agent n (cache2, k2) with
        | (rest, sfin) => (a :: rest, sfin)

/-! ## Helper lemmas -/

theorem isPrefixOfCh_iff (l₁ l₂ : List Char) : isPrefixOfCh l₁ l₂ = true ↔ l₁ <+: l₂ := by
  induction l₁ generalizing l₂ with
  | nil => simp [isPrefixOfCh]
  | cons a as ih =>
    cases l₂ with
    | nil => simp [isPrefixOfCh]
    | cons b bs =>
      simp [isPrefixOfCh, List.cons_prefix_cons, ih, Bool.and_eq_true, beq_iff_eq]

theorem isInfixOfCh_iff (n l : List Char) : isInfixOfCh n l = true ↔ n <:+: l := by
  induction l with
  | nil => simp [isInfixOfCh, List.isEmpty_iff, List.infix_nil]
  | cons b bs ih =>
    simp [isInfixOfCh, Bool.or_eq_true, isPrefixOfCh_iff, ih, List.infix_cons_iff]

theorem coordination_any_iff (task : String) :
    (coordination_keywords.any fun p => isInfixOfCh p.toList (lowerStr task)) = true ↔
      CoordinationMatch task := by
  simp [List.any_eq_true, CoordinationMatch, OccursIn, isInfixOfCh_iff]

theorem specialist_any_iff (task : String) :
    (specialist_keywords.any fun p => isInfixOfCh p.toList (lowerStr task)) = true ↔
      SpecialistMatch task := by
  simp [List.any_eq_true, SpecialistMatch, OccursIn, isInfixOfCh_iff]

/-! ## C1: the strategy classifier -/

/-- C1.  The strategy classifier is a total function into the closed set
{multi_agent_coordination, specialist_direct, assess_complexity}: on every
input string, if any coordination phrase occurs as a substring of the
lower-cased task it returns `multi_agent_coordination`; otherwise, if any
specialist phrase occurs it returns `specialist_direct`; otherwise it
returns `assess_complexity`.  The coordination check strictly precedes the
specialist check, so an input matching both yields
`multi_agent_coordination` (first conjunct, whose hypothesis does not
exclude a specialist match). -/
theorem classify_total_spec (task : String) :
    (CoordinationMatch task → classify task = .multi_agent_coordination) ∧
    (¬ CoordinationMatch task → SpecialistMatch task →
       classify task = .specialist_direct) ∧
    (¬ CoordinationMatch task → ¬ SpecialistMatch task →
       classify task = .assess_complexity) := by
  refine ⟨fun hc => ?_, fun hnc hs => ?_, fun hnc hns => ?_⟩
  · simp only [classify]
    rw [if_pos ((coordination_any_iff task).mpr hc)]
  · have hcb : (coordination_keywords.any fun p => isInfixOfCh p.toList (lowerStr task)) = false := by
      rw [Bool.eq_false_iff]
      exact fun h => hnc ((coordination_any_iff task).mp h)
    simp only [classify]
    rw [hcb, if_neg Bool.false_ne_true, (specialist_any_iff task).mpr hs, if_pos rfl]
  · have hcb : (coordination_keywords.any fun p => isInfixOfCh p.toList (lowerStr task)) = false := by
      rw [Bool.eq_false_iff]
      exact fun h => hnc ((coordination_any_iff task).mp h)
    have hsb : (specialist_keywords.any fun p => isInfixOfCh p.toList (lowerStr task)) = false := by
      rw [Bool.eq_false_iff]
      exact fun h => hns ((specialist_any_iff task).mp h)
    simp only [classify]
    rw [hcb, hsb, if_neg Bool.false_ne_true, if_neg Bool.false_ne_true]

/-- Witness for C1, on three concrete tasks: one containing both a
coordination phrase ("research and") and a specialist phrase
("synthesize"), classified `multi_agent_coordination` by precedence; one
containing only a specialist phrase; one containing neither. -/
theorem classify_total_spec_witness :
    CoordinationMatch "Research and synthesize the findings" ∧
    SpecialistMatch "Research and synthesize the findings" ∧
    classify "Research and synthesize the findings" = .multi_agent_coordination ∧
    ¬ CoordinationMatch "Please coordinate the team" ∧
    SpecialistMatch "Please coordinate the team" ∧
    classify "Please coordinate the team" = .specialist_direct ∧
    ¬ CoordinationMatch "What is 2+2?" ∧
    ¬ SpecialistMatch "What is 2+2?" ∧
    classify "What is 2+2?" = .assess_complexity :=
  ⟨by decide, by decide,
   (classify_total_spec "Research and synthesize the findings").1 (by decide),
   by decide, by decide,
   (classify_total_spec "Please coordinate the team").2.1 (by decide) (by decide),
   by decide, by decide,
   (classify_total_spec "What is 2+2?").2.2 (by decide) (by decide)⟩

/-! ## C2, C3, C4: gateway and tool error handling -/

theorem requestOutcome_of_failure {o : TransportOutcome} {r : String}
    (h : failureReason o = some r) : requestOutcome o = .error r := by
  cases o with
  | connectionError s =>
    simp only [failureReason, Option.some.injEq] at h
    simp [requestOutcome, h]
  | httpResponse status body =>
    by_cases hs : 200 ≤ status ∧ status < 300
    · simp [failureReason, hs] at h
    · simp only [failureReason, if_neg hs, Option.some.injEq] at h
      simp [requestOutcome, if_neg hs, h]

/-- C2.  For every prompt, message list and failing transport outcome
(connection error or non-2xx final HTTP status, i.e. a round trip with a
failure reason), each of `generate`, `chat` and `list_models` returns the
mapping `{"error": <reason>}` — the reason under the key `"error"` as a
string — and, being a total function of the outcome, never propagates the
exception to the caller. -/
theorem gateway_failure_returns_error_mapping
    (c : OllamaClient) (prompt : String) (messages : List JVal) (stream : Bool)
    (post : String → JVal → TransportOutcome) (get : String → TransportOutcome)
    (r₁ r₂ r₃ : String)
    (h₁ : failureReason (post (generateUrl c) (generateData c prompt stream)) = some r₁)
    (h₂ : failureReason (post (chatUrl c) (chatData c messages stream)) = some r₂)
    (h₃ : failureReason (get (tagsUrl c)) = some r₃) :
    c.generate prompt stream post = [("error", .str r₁)] ∧
    lookupKey "error" (c.generate prompt stream post) = some (.str r₁) ∧
    c.chat messages stream post = [("error", .str r₂)] ∧
    lookupKey "error" (c.chat messages stream post) = some (.str r₂) ∧
    c.list_models get = [("error", .str r₃)] ∧
    lookupKey "error" (c.list_models get) = some (.str r₃) := by
  have e₁ := requestOutcome_of_failure h₁
  have e₂ := requestOutcome_of_failure h₂
  have e₃ := requestOutcome_of_failure h₃
  refine ⟨?_, ?_, ?_, ?_, ?_, ?_⟩ <;>
    simp [OllamaClient.generate, OllamaClient.chat, OllamaClient.list_models,
          e₁, e₂, e₃, lookupKey]

/-- The client built from the default configuration, used to instantiate
the gateway theorems. -/
def testClient : OllamaClient :=
  { base_url := .str "http://localhost:11434", model := .str "llama3.2:1b" }

/-- A transport oracle whose every POST round trip fails at the connection
level. -/
def postFail : String → JVal → TransportOutcome :=
  fun _ _ => .connectionError "connection refused"

/-- A transport oracle whose every GET round trip ends in an HTTP 500. -/
def getFail : String → TransportOutcome :=
  fun _ => .httpResponse 500 []

/-- Witness for C2 at a concrete client, prompt and failing outcomes. -/
theorem gateway_failure_returns_error_mapping_witness :
    failureReason (postFail (generateUrl testClient)
      (generateData testClient "hello" false)) = some "connection refused" ∧
    failureReason (postFail (chatUrl testClient)
      (chatData testClient [] false)) = some "connection refused" ∧
    failureReason (getFail (tagsUrl testClient)) = some "HTTP error 500" ∧
    (testClient.generate "hello" false postFail =
       [("error", .str "connection refused")] ∧
     lookupKey "error" (testClient.generate "hello" false postFail) =
       some (.str "connection refused") ∧
     testClient.chat [] false postFail = [("error", .str "connection refused")] ∧
     lookupKey "error" (testClient.chat [] false postFail) =
       some (.str "connection refused") ∧
     testClient.list_models getFail = [("error", .str "HTTP error 500")] ∧
     lookupKey "error" (testClient.list_models getFail) =
       some (.str "HTTP error 500")) :=
  ⟨rfl, rfl, rfl,
   gateway_failure_returns_error_mapping testClient "hello" [] false postFail getFail
     "connection refused" "connection refused" "HTTP error 500" rfl rfl rfl⟩

/-- C3.  For every prompt and every value of `use_chat`, when the
underlying gateway result carries an `"error"` entry (with the failure
reason as a string, which is how the gateway stores it), the
`ollama_query` tool returns — never raises — the plain string
`"Error: "` followed by the reason. -/
theorem ollama_query_stringifies_gateway_error
    (client : OllamaClient) (prompt : String) (use_chat : Bool)
    (post : String → JVal → TransportOutcome) (r : String)
    (h : lookupKey "error" (gatewayResult client prompt use_chat post) =
           some (.str r)) :
    ollama_query client prompt use_chat post = .ok (.str ("Error: " ++ r)) := by
  cases use_chat with
  | false =>
    simp only [gatewayResult, Bool.false_eq_true, if_false] at h
    simp [ollama_query, h, pyStr]
  | true =>
    simp only [gatewayResult, if_true] at h
    simp [ollama_query, h, pyStr]

/-- Witness for C3 at a concrete failing round trip, on both the generate
path and the chat path. -/
theorem ollama_query_stringifies_gateway_error_witness :
    lookupKey "error" (gatewayResult testClient "hello" false postFail) =
      some (.str "connection refused") ∧
    ollama_query testClient "hello" false postFail =
      .ok (.str ("Error: " ++ "connection refused")) ∧
    lookupKey "error" (gatewayResult testClient "hello" true postFail) =
      some (.str "connection refused") ∧
    ollama_query testClient "hello" true postFail =
      .ok (.str ("Error: " ++ "connection refused")) :=
  ⟨rfl,
   ollama_query_stringifies_gateway_error testClient "hello" false postFail
     "connection refused" rfl,
   rfl,
   ollama_query_stringifies_gateway_error testClient "hello" true postFail
     "connection refused" rfl⟩

/-- A transport oracle answering every POST with HTTP 200 and an empty
JSON object body: a successful gateway response in which the completion
field ("response" / "message".."content") is absent. -/
def post200empty : String → JVal → TransportOutcome :=
  fun _ _ => .httpResponse 200 []

/-- Counterexample to C4.  On a successful gateway response (no `"error"`
entry) whose completion field is absent, the tool returns the string
`"No response received"` — not the empty string the claim states — on both
the generate and the chat path. -/
theorem ollama_query_absent_field_counterexample :
    failureReason (post200empty (generateUrl testClient)
      (generateData testClient "hi" false)) = none ∧
    lookupKey "error" (testClient.generate "hi" false post200empty) = none ∧
    lookupKey "response" (testClient.generate "hi" false post200empty) = none ∧
    ollama_query testClient "hi" false post200empty =
      .ok (.str "No response received") ∧
    ollama_query testClient "hi" true post200empty =
      .ok (.str "No response received") ∧
    ("No response received" : String) ≠ "" :=
  ⟨rfl, rfl, rfl, rfl, rfl, by decide⟩

/-- C4 (amended).  For every successful gateway response (no `"error"`
entry) in which the model's textual completion field is absent — the
`"response"` field on the generate path; the message `"content"` field on
the chat path — the text returned through the model-query tool is the
string `"No response received"` (the hard-coded `.get` default), not the
empty string. -/
theorem ollama_query_absent_field_default
    (client : OllamaClient) (prompt : String)
    (post : String → JVal → TransportOutcome) :
    (lookupKey "error" (client.generate prompt false post) = none →
     lookupKey "response" (client.generate prompt false post) = none →
     ollama_query client prompt false post = .ok (.str "No response received")) ∧
    (lookupKey "error" (client.chat (userMessages prompt) false post) = none →
     ∀ fields,
       (lookupKey "message"
          (client.chat (userMessages prompt) false post)).getD (.obj []) =
         .obj fields →
       lookupKey "content" fields = none →
       ollama_query client prompt true post = .ok (.str "No response received")) := by
  constructor
  · intro he hr
    simp [ollama_query, he, hr]
  · intro he fields hm hc
    simp [ollama_query, he, hm, hc]

/-- Witness for the amended C4 at a concrete successful-but-empty
response, on both paths. -/
theorem ollama_query_absent_field_default_witness :
    (lookupKey "error" (testClient.generate "hi" false post200empty) = none ∧
     lookupKey "response" (testClient.generate "hi" false post200empty) = none ∧
     ollama_query testClient "hi" false post200empty =
       .ok (.str "No response received")) ∧
    (lookupKey "error" (testClient.chat (userMessages "hi") false post200empty) = none ∧
     (lookupKey "message"
        (testClient.chat (userMessages "hi") false post200empty)).getD (.obj []) =
       .obj [] ∧
     lookupKey "content" ([] : List (String × JVal)) = none ∧
     ollama_query testClient "hi" true post200empty =
       .ok (.str "No response received")) :=
  ⟨⟨rfl, rfl,
    (ollama_query_absent_field_default testClient "hi" post200empty).1 rfl rfl⟩,
   ⟨rfl, rfl, rfl,
    (ollama_query_absent_field_default testClient "hi" post200empty).2 rfl [] rfl rfl⟩⟩

/-! ## C5, C6, C7: swarm assembly -/

theorem initialize_ollama_unreachable (cfg : JVal) (get : String → TransportOutcome)
    (h : ∀ c : OllamaClient, (lookupKey "error" (c.list_models get)).isSome = true) :
    ∃ e oc, initialize_ollama cfg get = .error (e, oc) := by
  cases h₁ : getKey cfg "ollama" with
  | error e => exact ⟨e, none, by simp [initialize_ollama, h₁]⟩
  | ok ollama_cfg =>
    cases h₂ : getKey ollama_cfg "host" with
    | error e => exact ⟨e, none, by simp [initialize_ollama, h₁, h₂]⟩
    | ok host =>
      cases h₃ : getKey ollama_cfg "default_model" with
      | error e => exact ⟨e, none, by simp [initialize_ollama, h₁, h₂, h₃]⟩
      | ok default_model =>
        refine ⟨"ConnectionError: Make sure Ollama is running on localhost:11434",
                some { base_url := host, model := default_model }, ?_⟩
        simp [initialize_ollama, h₁, h₂, h₃,
              h { base_url := host, model := default_model }]

/-- C5.  When the startup reachability check fails — `list_models` comes
back carrying an `"error"` entry, whatever client the configuration
produced — `MultiAgentSwarm.__init__` raises: initialization ends in an
error whose captured field state has an empty agents collection, no swarm
object, and zero `OllamaModel` constructions — assembly is atomic on
startup failure. -/
theorem mas_init_unreachable_atomic (fs : FileState) (get : String → TransportOutcome)
    (h : ∀ c : OllamaClient, (lookupKey "error" (c.list_models get)).isSome = true) :
    ∃ msg st, mas_init fs get = .error (msg, st) ∧
      st.agents = [] ∧ st.swarm = none ∧ st.models_created = 0 := by
  obtain ⟨e, oc, hio⟩ :=
    initialize_ollama_unreachable ((load_config "config.yml" fs).config) get h
  refine ⟨e,
    { config := (load_config "config.yml" fs).config, ollama_client := oc,
      ollama_model := none, agents := [], swarm := none, models_created := 0 },
    ?_, rfl, rfl, rfl⟩
  simp [mas_init, hio]

/-- A GET transport oracle for an endpoint that is down. -/
def getDown : String → TransportOutcome :=
  fun _ => .connectionError "Connection refused"

/-- Witness for C5: configuration file absent, endpoint down. -/
theorem mas_init_unreachable_atomic_witness :
    (∀ c : OllamaClient, (lookupKey "error" (c.list_models getDown)).isSome = true) ∧
    ∃ msg st, mas_init .absent getDown = .error (msg, st) ∧
      st.agents = [] ∧ st.swarm = none ∧ st.models_created = 0 :=
  ⟨fun _ => rfl, mas_init_unreachable_atomic .absent getDown (fun _ => rfl)⟩

theorem create_specialized_agents_ok {cfg : JVal} {m : OllamaModelSpec}
    {ags : List (String × AgentD)}
    (h : create_specialized_agents cfg m = .ok ags) :
    ∃ ph ps pr pt pv,
      getPrompt cfg "hynicl_agent_prompt" = .ok ph ∧
      getPrompt cfg "search_agent_prompt" = .ok ps ∧
      getPrompt cfg "reasoning_agent_prompt" = .ok pr ∧
      getPrompt cfg "tool_agent_prompt" = .ok pt ∧
      getPrompt cfg "validation_agent_prompt" = .ok pv ∧
      ags = [("hynicl", { name := "hynicl", system_prompt := ph,
                          tools := [.file_read, .file_write, .editor, .ollama_query],
                          model := m }),
             ("search", { name := "search", system_prompt := ps,
                          tools := [.web_search, .memory, .ollama_query],
                          model := m }),
             ("reasoning", { name := "reasoning", system_prompt := pr,
                             tools := [.memory, .calculator, .ollama_query],
                             model := m }),
             ("tool", { name := "tool", system_prompt := pt,
                        tools := [.file_read, .file_write, .editor, .calculator,
                                  .code_execution, .memory, .ollama_query],
                        model := m }),
             ("validation", { name := "validation", system_prompt := pv,
                              tools := [.memory, .file_read, .ollama_query],
                              model := m })] := by
  cases hh : getPrompt cfg "hynicl_agent_prompt" with
  | error e =>
    simp [create_specialized_agents, create_hynicl_agent, hh] at h
  | ok ph =>
    cases hs : getPrompt cfg "search_agent_prompt" with
    | error e =>
      simp [create_specialized_agents, create_hynicl_agent, create_search_agent,
            hh, hs] at h
    | ok ps =>
      cases hr : getPrompt cfg "reasoning_agent_prompt" with
      | error e =>
        simp [create_specialized_agents, create_hynicl_agent, create_search_agent,
              create_reasoning_agent, hh, hs, hr] at h
      | ok pr =>
        cases ht : getPrompt cfg "tool_agent_prompt" with
        | error e =>
          simp [create_specialized_agents, create_hynicl_agent, create_search_agent,
                create_reasoning_agent, create_tool_agent, hh, hs, hr, ht] at h
        | ok pt =>
          cases hv : getPrompt cfg "validation_agent_prompt" with
          | error e =>
            simp [create_specialized_agents, create_hynicl_agent, create_search_agent,
                  create_reasoning_agent, create_tool_agent, create_validation_agent,
                  hh, hs, hr, ht, hv] at h
          | ok pv =>
            refine ⟨ph, ps, pr, pt, pv, rfl, rfl, rfl, rfl, rfl, ?_⟩
            simp [create_specialized_agents, create_hynicl_agent, create_search_agent,
                  create_reasoning_agent, create_tool_agent, create_validation_agent,
                  hh, hs, hr, ht, hv] at h
            exact h.symm

/-- Every registered tool name is in the Tool Registry (the registry lists
all eight registered tool functions). -/
theorem toolName_mem_registry (t : ToolName) : t ∈ registry := by
  cases t <;> simp [registry]

/-- C6.  Successful assembly builds exactly five agents, one per role in
source order, each with its fixed role-specific capability list and a
role-specific system prompt read from the configuration's `Prompt`
section, and every capability any agent references is a registered tool
function. -/
theorem assembly_five_agents (fs : FileState) (get : String → TransportOutcome)
    (st : MASState) (h : mas_init fs get = .ok st) :
    st.agents.map Prod.fst = ["hynicl", "search", "reasoning", "tool", "validation"] ∧
    (∃ m ph ps pr pt pv,
      st.ollama_model = some m ∧
      getPrompt st.config "hynicl_agent_prompt" = .ok ph ∧
      getPrompt st.config "search_agent_prompt" = .ok ps ∧
      getPrompt st.config "reasoning_agent_prompt" = .ok pr ∧
      getPrompt st.config "tool_agent_prompt" = .ok pt ∧
      getPrompt st.config "validation_agent_prompt" = .ok pv ∧
      st.agents = [("hynicl", { name := "hynicl", system_prompt := ph,
                                tools := [.file_read, .file_write, .editor, .ollama_query],
                                model := m }),
                   ("search", { name := "search", system_prompt := ps,
                                tools := [.web_search, .memory, .ollama_query],
                                model := m }),
                   ("reasoning", { name := "reasoning", system_prompt := pr,
                                   tools := [.memory, .calculator, .ollama_query],
                                   model := m }),
                   ("tool", { name := "tool", system_prompt := pt,
                              tools := [.file_read, .file_write, .editor, .calculator,
                                        .code_execution, .memory, .ollama_query],
                              model := m }),
                   ("validation", { name := "validation", system_prompt := pv,
                                    tools := [.memory, .file_read, .ollama_query],
                                    model := m })]) ∧
    (∀ p ∈ st.agents, ∀ t ∈ p.2.tools, t ∈ registry) := by
  cases hio : initialize_ollama ((load_config "config.yml" fs).config) get with
  | error p => obtain ⟨e, oc⟩ := p; simp [mas_init, hio] at h
  | ok cm =>
    obtain ⟨client, m⟩ := cm
    cases hcsa : create_specialized_agents ((load_config "config.yml" fs).config) m with
    | error e => simp [mas_init, hio, hcsa] at h
    | ok ags =>
      cases hsw : create_swarm ((load_config "config.yml" fs).config) ags with
      | error e => simp [mas_init, hio, hcsa, hsw] at h
      | ok sw =>
        simp only [mas_init, hio, hcsa, hsw] at h
        obtain ⟨ph, ps, pr, pt, pv, e₁, e₂, e₃, e₄, e₅, hags⟩ :=
          create_specialized_agents_ok hcsa
        subst hags
        cases h
        exact ⟨rfl,
               ⟨m, ph, ps, pr, pt, pv, rfl, e₁, e₂, e₃, e₄, e₅, rfl⟩,
               fun p _ t _ => toolName_mem_registry t⟩

/-- C7.  In every successfully assembled swarm the five agents are bound
to one and the same model-gateway instance: exactly one `OllamaModel` is
constructed during initialization, and every agent's `model` reference is
that instance. -/
theorem assembly_shares_one_model (fs : FileState) (get : String → TransportOutcome)
    (st : MASState) (h : mas_init fs get = .ok st) :
    st.models_created = 1 ∧
    ∃ m, st.ollama_model = some m ∧ ∀ p ∈ st.agents, p.2.model = m := by
  cases hio : initialize_ollama ((load_config "config.yml" fs).config) get with
  | error p => obtain ⟨e, oc⟩ := p; simp [mas_init, hio] at h
  | ok cm =>
    obtain ⟨client, m⟩ := cm
    cases hcsa : create_specialized_agents ((load_config "config.yml" fs).config) m with
    | error e => simp [mas_init, hio, hcsa] at h
    | ok ags =>
      cases hsw : create_swarm ((load_config "config.yml" fs).config) ags with
      | error e => simp [mas_init, hio, hcsa, hsw] at h
      | ok sw =>
        simp only [mas_init, hio, hcsa, hsw] at h
        obtain ⟨ph, ps, pr, pt, pv, _, _, _, _, _, hags⟩ :=
          create_specialized_agents_ok hcsa
        subst hags
        cases h
        refine ⟨rfl, m, rfl, ?_⟩
        intro p hp
        fin_cases hp <;> rfl

/-- A complete configuration document of the shape spec §6 describes: the
`ollama` and `swarm` sections of the default document plus a `Prompt`
mapping keyed by role name. -/
def testConfig : JVal :=
  .obj [("ollama", .obj [
           ("host", .str "http://localhost:11434"),
           ("default_model", .str "llama3.2:1b"),
           ("temperature", .flt (7/10)),
           ("keep_alive", .str "10m")]),
        ("swarm", .obj [
           ("max_handoffs", .num 25),
           ("max_iterations", .num 30),
           ("execution_timeout", .flt 1200),
           ("node_timeout", .flt 300),
           ("repetitive_handoff_detection_window", .num 8),
           ("repetitive_handoff_min_unique_agents", .num 3)]),
        ("Prompt", .obj [
           ("hynicl_agent_prompt", .str "You are HYNICL, the master coordinator."),
           ("search_agent_prompt", .str "You are the search specialist."),
           ("reasoning_agent_prompt", .str "You are the reasoning specialist."),
           ("tool_agent_prompt", .str "You are the tool specialist."),
           ("validation_agent_prompt", .str "You are the validation specialist.")])]

/-- A GET transport oracle for a healthy endpoint with an empty model
list. -/
def getUp : String → TransportOutcome :=
  fun _ => .httpResponse 200 [("models", .arr [])]

/-- Witness for C6: a concrete successful assembly. -/
theorem assembly_five_agents_witness :
    ∃ st, mas_init (.presentOk testConfig) getUp = .ok st ∧
      (st.agents.map Prod.fst =
         ["hynicl", "search", "reasoning", "tool", "validation"] ∧
       (∃ m ph ps pr pt pv,
         st.ollama_model = some m ∧
         getPrompt st.config "hynicl_agent_prompt" = .ok ph ∧
         getPrompt st.config "search_agent_prompt" = .ok ps ∧
         getPrompt st.config "reasoning_agent_prompt" = .ok pr ∧
         getPrompt st.config "tool_agent_prompt" = .ok pt ∧
         getPrompt st.config "validation_agent_prompt" = .ok pv ∧
         st.agents = [("hynicl", { name := "hynicl", system_prompt := ph,
                                   tools := [.file_read, .file_write, .editor, .ollama_query],
                                   model := m }),
                      ("search", { name := "search", system_prompt := ps,
                                   tools := [.web_search, .memory, .ollama_query],
                                   model := m }),
                      ("reasoning", { name := "reasoning", system_prompt := pr,
                                      tools := [.memory, .calculator, .ollama_query],
                                      model := m }),
                      ("tool", { name := "tool", system_prompt := pt,
                                 tools := [.file_read, .file_write, .editor, .calculator,
                                           .code_execution, .memory, .ollama_query],
                                 model := m }),
                      ("validation", { name := "validation", system_prompt := pv,
                                       tools := [.memory, .file_read, .ollama_query],
                                       model := m })]) ∧
       (∀ p ∈ st.agents, ∀ t ∈ p.2.tools, t ∈ registry)) :=
  ⟨_, rfl, assembly_five_agents (.presentOk testConfig) getUp _ rfl⟩

/-- Witness for C7 at the same concrete successful assembly. -/
theorem assembly_shares_one_model_witness :
    ∃ st, mas_init (.presentOk testConfig) getUp = .ok st ∧
      (st.models_created = 1 ∧
       ∃ m, st.ollama_model = some m ∧ ∀ p ∈ st.agents, p.2.model = m) :=
  ⟨_, rfl, assembly_shares_one_model (.presentOk testConfig) getUp _ rfl⟩

/-! ## C8: configuration loading fallback -/

/-- C8.  When the configuration file is absent, `load_config` returns the
synthesized default document and issues a write persisting it; when the
file exists but reading or parsing raises, the same default document is
returned (the exception never reaches the caller — `load_config` is a
total function of the file state).  The default document carries the
`ollama` host/model/temperature/keep_alive section and the six swarm
policy numbers 25, 30, 1200.0, 300.0, 8, 3. -/
theorem load_config_default_fallback :
    (∀ path, load_config path .absent =
       { config := default_config, writes := [(path, default_config)] }) ∧
    (∀ path err, load_config path (.presentBad err) =
       { config := default_config, writes := [(path, default_config)] }) ∧
    getKey default_config "ollama" =
      .ok (.obj [("host", .str "http://localhost:11434"),
                 ("default_model", .str "llama3.2:1b"),
                 ("temperature", .flt (7/10)),
                 ("keep_alive", .str "10m")]) ∧
    (∃ sw, getKey default_config "swarm" = .ok sw ∧
       getKey sw "max_handoffs" = .ok (.num 25) ∧
       getKey sw "max_iterations" = .ok (.num 30) ∧
       getKey sw "execution_timeout" = .ok (.flt 1200) ∧
       getKey sw "node_timeout" = .ok (.flt 300) ∧
       getKey sw "repetitive_handoff_detection_window" = .ok (.num 8) ∧
       getKey sw "repetitive_handoff_min_unique_agents" = .ok (.num 3)) :=
  ⟨fun _ => rfl, fun _ _ => rfl, rfl, ⟨_, rfl, rfl, rfl, rfl, rfl, rfl, rfl⟩⟩

/-! ## C9: the stub tools are pure and deterministic -/

theorem toList_append (s t : String) : (s ++ t).toList = s.toList ++ t.toList := by
  cases s; cases t; rfl

/-- C9.  `web_search` and `code_execution` are deterministic pure
functions of their declared text inputs: they ignore the ambient world
(network and process state), `code_execution` also ignores the code
argument, and the outputs are the fixed placeholder texts embedding the
query (respectively mentioning the language) as a substring. -/
theorem stub_tools_pure (w₁ w₂ : World) (q c₁ c₂ lang : String) :
    web_search w₁ q = web_search w₂ q ∧
    q.toList <:+: (web_search w₁ q).toList ∧
    code_execution w₁ c₁ lang = code_execution w₂ c₂ lang ∧
    lang.toList <:+: (code_execution w₁ c₁ lang).toList := by
  refine ⟨rfl, ?_, rfl, ?_⟩
  · exact ⟨("Search results for \x27").toList,
           ("\x27: [Simulated search results would appear here]").toList,
           by simp [web_search, toList_append]⟩
  · exact ⟨("Code execution result: [Simulated execution of ").toList,
           (" code]").toList,
           by simp [code_execution, toList_append]⟩

/-! ## C10: get_agent is caching and idempotent -/

theorem runGetAgent_cached (A : Type) (create_agent : Nat → A) (k : Nat) (a : A) (j : Nat) :
    runGetAgent create_agent k (some a, j) = (List.replicate k a, (some a, j)) := by
  induction k with
  | zero => rfl
  | succ n ih => simp [runGetAgent, get_agent, ih, List.replicate_succ]

/-- C10.  `BaseAgent.get_agent` is idempotent and caching: starting from a
freshly constructed wrapper (`self.agent = None`, no invocations yet), any
positive number `n` of successive calls invokes `create_agent` exactly
once — on the first call — and every call returns the instance created by
that single invocation. -/
theorem get_agent_caching (A : Type) (create_agent : Nat → A) (n : Nat) (h : 1 ≤ n) :
    (runGetAgent create_agent n (none, 0)).2 = (some (create_agent 0), 1) ∧
    ∀ a ∈ (runGetAgent create_agent n (none, 0)).1, a = create_agent 0 := by
  cases n with
  | zero => exact absurd h (by decide)
  | succ k =>
    have : runGetAgent create_agent (k + 1) (none, 0) =
        (create_agent 0 :: List.replicate k (create_agent 0),
         (some (create_agent 0), 1)) := by
      simp [runGetAgent, get_agent, runGetAgent_cached]
    rw [this]
    refine ⟨rfl, ?_⟩
    intro a ha
    rcases List.mem_cons.mp ha with h' | h'
    · exact h'
    · exact List.eq_of_mem_replicate h'

/-- Witness for C10: three calls on a fresh wrapper with an
invocation-indexed factory — one construction, all results equal the
first-created instance. -/
theorem get_agent_caching_witness :
    1 ≤ 3 ∧
    ((runGetAgent (fun k : Nat => k) 3 (none, 0)).2 = (some 0, 1) ∧
     ∀ a ∈ (runGetAgent (fun k : Nat => k) 3 (none, 0)).1, a = 0) :=
  ⟨by decide, get_agent_caching Nat (fun k : Nat => k) 3 (by decide)⟩

end MAS
